import Mathlib

/-!
Shallow embedding of the Linux `ledtrig-netdev.c` LED trigger
(drivers/leds/trigger/ledtrig-netdev.c) and proofs about its controller
state machine: the reconciler `set_baseline_state`, the sysfs attribute
stores, the netdev notifier and the periodic activity work function.

External kernel services that the driver consumes (LED class device,
workqueue scheduling, netdev registry, kstrtoul) are modelled explicitly;
machine integers are Nat with `% 2^32` where the C code truncates.
The poll interval is modelled in milliseconds: the C code stores
`msecs_to_jiffies(value)` and converts back with `jiffies_to_msecs`
at every use site, so the jiffies representation is abstracted away.
-/

namespace LedtrigNetdev

/-- Size of the `device_name` buffer (`char device_name[IFNAMSIZ]`). -/
def IFNAMSIZ : Nat := 16

/-- The `EINVAL` errno value. -/
def EINVAL : Int := 22

/-- The neutral notifier return value `NOTIFY_DONE` (0). -/
def NOTIFY_DONE : Nat := 0

/-- The C NUL character terminating strings in the name buffer. -/
def NUL : Char := Char.ofNat 0

/-- 2^32, the modulus of the C type `unsigned int` used for `last_activity`
and `new_activity`. -/
def U32 : Nat := 2 ^ 32

/-- Modelled from the spec: a network interface as the Device Registry
reports it at one instant — its current name and carrier (link) state.
The traffic counters are sampled separately at each poll. -/
structure NetDevice where
  name : String
  carrier : Bool
  deriving DecidableEq

/-- The `enum netdev_led_attr` selecting which flag a store targets. -/
inductive NetdevLedAttr
  | link
  | tx
  | rx
  deriving DecidableEq

/-- The six netdev notifier event kinds the handler reacts to, plus a
representative of every other kind (which the handler ignores). -/
inductive NetdevEvt
  | up
  | down
  | change
  | register
  | unregister
  | changename
  | otherEvt
  deriving DecidableEq

/-- The controller state: `struct led_netdev_data` together with the fields
of the attached `led_classdev` that the driver reads and writes
(`brightness`, `blink_brightness`, `max_brightness`) and the scheduling
state of its delayed work item. `interval` is in milliseconds;
`work_delay` is the delay (ms) the pending work item was scheduled with,
meaningful only while `work_scheduled` is true. -/
structure LedNetdevData where
  device_name : List Char
  net_dev : Option NetDevice
  interval : Nat
  last_activity : Nat
  mode_link : Bool
  mode_tx : Bool
  mode_rx : Bool
  mode_linkup : Bool
  brightness : Nat
  blink_brightness : Nat
  max_brightness : Nat
  work_scheduled : Bool
  work_delay : Nat
  deriving DecidableEq

/-- The C string stored in a name buffer: its characters up to the first NUL. -/
def cstring (buf : List Char) : String :=
  String.mk (buf.takeWhile (fun c => c ≠ NUL))

/-- Modelled from the spec: `cancel_delayed_work_sync` — the poll task is
cancelled and fully quiesced, so the work item is no longer pending. -/
def cancelWork (s : LedNetdevData) : LedNetdevData :=
  { s with work_scheduled := false }

/-- Modelled from the spec: `schedule_delayed_work` — queues the work item
with the given delay; a no-op when the item is already pending. -/
def scheduleWork (s : LedNetdevData) (delay : Nat) : LedNetdevData :=
  if s.work_scheduled then s
  else { s with work_scheduled := true, work_delay := delay }

/-- Modelled from the spec: `led_set_brightness` — sets the indicator
output level (`LED_OFF` is 0). -/
def ledSetBrightness (s : LedNetdevData) (b : Nat) : LedNetdevData :=
  { s with brightness := b }

/-- Modelled from the spec: `dev_get_by_name(&init_net, name)` — resolves a
name in the registry (modelled as the list of devices of `init_net`),
returning a held reference or none. -/
def devGetByName (reg : List NetDevice) (name : String) : Option NetDevice :=
  reg.find? (fun d => d.name == name)

/-- Modelled from the spec: `kstrtoul` on the textual configuration surface
— parses a decimal numeral with an optional trailing newline; malformed
text is rejected with an invalid-argument indication. -/
def kstrtoul (buf : String) : Option Nat :=
  let l := buf.data
  let l := if l.getLast? = some '\n' then l.dropLast else l
  if l ≠ [] ∧ l.all Char.isDigit then
    some (l.foldl (fun n c => n * 10 + (c.toNat - 48)) 0)
  else none

/-- Modelled from the spec: `strncpy(dst, src, size)` into the fixed name
buffer, for a NUL-free `src` of length `size` — copies exactly `size`
characters and leaves the tail of the buffer unchanged. -/
def strncpyBuf (dst : List Char) (src : String) : List Char :=
  src.data ++ dst.drop src.length

/-- Whether `p` occurs at the start of `l`. -/
def listStartsWith : List Char → List Char → Bool
  | [], _ => true
  | _ :: _, [] => false
  | a :: as, b :: bs => a = b && listStartsWith as bs

/-- Whether `needle` occurs contiguously inside `hay`. -/
def hasSubstring (needle : List Char) : List Char → Bool
  | [] => listStartsWith needle []
  | c :: t => listStartsWith needle (c :: t) || hasSubstring needle t

/-- Modelled from the spec: `strstr(hay, needle) != NULL` — substring test. -/
def strstrB (hay needle : String) : Bool :=
  hasSubstring needle.data hay.data

/-- The `NETDEV_LED_MODE_LINKUP` value derived from a (possibly absent)
device handle and its carrier state: set exactly when a device is present
and reports carrier. -/
def linkupFromDev : Option NetDevice → Bool
  | some d => d.carrier
  | none => false

/-- The blink-brightness capture performed at the top of
`set_baseline_state`: a non-zero current brightness is remembered as the
pulse brightness; if none is known, fall back to `max_brightness`. -/
def captureBlink (s : LedNetdevData) : Nat :=
  if (if s.brightness ≠ 0 then s.brightness else s.blink_brightness) = 0
  then s.max_brightness
  else (if s.brightness ≠ 0 then s.brightness else s.blink_brightness)

/-- The Reconciler `set_baseline_state`: captures the pulse brightness,
then, when `NETDEV_LED_MODE_LINKUP` is clear, forces the output OFF;
otherwise sets the baseline level from `NETDEV_LED_LINK` and, when TX or
RX monitoring is on, starts the activity poller with zero delay. -/
def set_baseline_state (s : LedNetdevData) : LedNetdevData :=
  if s.mode_linkup = false then
    ledSetBrightness { s with blink_brightness := captureBlink s } 0
  else if s.mode_tx || s.mode_rx then
    scheduleWork
      (ledSetBrightness { s with blink_brightness := captureBlink s }
        (if s.mode_link then captureBlink s else 0)) 0
  else
    ledSetBrightness { s with blink_brightness := captureBlink s }
      (if s.mode_link then captureBlink s else 0)

/-- The state mutation of `device_name_store` between
`cancel_delayed_work_sync` and `set_baseline_state`: release the old
handle, copy the written name into the buffer, strip one trailing
newline, re-resolve the name when non-empty, recompute
`NETDEV_LED_MODE_LINKUP` and reset `last_activity`. -/
def deviceNameRebind (s : LedNetdevData) (buf : String) (reg : List NetDevice) :
    LedNetdevData :=
  let dn0 := strncpyBuf s.device_name buf
  let dn := if 0 < buf.length ∧ dn0.getD (buf.length - 1) NUL = '\n'
            then dn0.set (buf.length - 1) NUL
            else dn0
  let nd := if dn.getD 0 NUL ≠ NUL then devGetByName reg (cstring dn) else none
  { s with device_name := dn, net_dev := nd,
           mode_linkup := linkupFromDev nd, last_activity := 0 }

/-- `device_name_store`: rejects over-length names with `-EINVAL`;
otherwise cancels the poll task, rebinds, and reconciles, returning the
consumed size. -/
def device_name_store (s : LedNetdevData) (buf : String) (reg : List NetDevice) :
    LedNetdevData × Int :=
  if IFNAMSIZ ≤ buf.length then (s, -EINVAL)
  else
    (set_baseline_state (deviceNameRebind (cancelWork s) buf reg),
     (buf.length : Int))

/-- Sets the mode bit selected by `attr`. -/
def setModeBit (s : LedNetdevData) (attr : NetdevLedAttr) (v : Bool) :
    LedNetdevData :=
  match attr with
  | NetdevLedAttr.link => { s with mode_link := v }
  | NetdevLedAttr.tx => { s with mode_tx := v }
  | NetdevLedAttr.rx => { s with mode_rx := v }

/-- `netdev_led_attr_store` (the link/tx/rx flag writes): parses the text,
cancels the poll task, sets or clears the selected bit from the parsed
value, and reconciles. -/
def netdev_led_attr_store (s : LedNetdevData) (buf : String)
    (attr : NetdevLedAttr) : LedNetdevData × Int :=
  match kstrtoul buf with
  | none => (s, -EINVAL)
  | some state =>
      (set_baseline_state (setModeBit (cancelWork s) attr (state != 0)),
       (buf.length : Int))

/-- `mode_show`: prints the three flag slots joined by single spaces, each
slot being its token when the flag is set and empty otherwise. -/
def mode_show (s : LedNetdevData) : String :=
  (if s.mode_link then "link" else "") ++ " " ++
  (if s.mode_tx then "tx" else "") ++ " " ++
  (if s.mode_rx then "rx" else "") ++ "\n"

/-- The read format the specification describes for the combined-mode
endpoint: a space-joined subset of the tokens link, tx, rx, one token per
currently-set flag. Stated from the spec wording, to be compared with
`mode_show`. -/
def modeShowSpec (s : LedNetdevData) : String :=
  String.intercalate " "
    ((if s.mode_link then ["link"] else []) ++
     (if s.mode_tx then ["tx"] else []) ++
     (if s.mode_rx then ["rx"] else []))

/-- `mode_store`: drives the three flag stores with "1" or "0" according
to substring presence of each token in the written text, then returns the
consumed size. -/
def mode_store (s : LedNetdevData) (buf : String) : LedNetdevData × Int :=
  let s1 := (netdev_led_attr_store s
    (if strstrB buf "link" then "1" else "0") NetdevLedAttr.link).1
  let s2 := (netdev_led_attr_store s1
    (if strstrB buf "tx" then "1" else "0") NetdevLedAttr.tx).1
  let s3 := (netdev_led_attr_store s2
    (if strstrB buf "rx" then "1" else "0") NetdevLedAttr.rx).1
  (s3, (buf.length : Int))

/-- `interval_store`: parses the text; values inside [5, 10000] cancel the
poll task, set the interval and reconcile; values outside are silently
ignored. Either way the write returns the consumed size. -/
def interval_store (s : LedNetdevData) (buf : String) : LedNetdevData × Int :=
  match kstrtoul buf with
  | none => (s, -EINVAL)
  | some value =>
      if 5 ≤ value ∧ value ≤ 10000 then
        (set_baseline_state { cancelWork s with interval := value },
         (buf.length : Int))
      else (s, (buf.length : Int))

/-- The state mutation of `netdev_trig_notify` for a matching event,
between `cancel_delayed_work_sync` and `set_baseline_state`: clear
`NETDEV_LED_MODE_LINKUP` unconditionally, then dispatch on the event
kind; UP and CHANGE set it again from the event device's carrier. -/
def notifyUpdate (s : LedNetdevData) (evt : NetdevEvt) (dev : NetDevice) :
    LedNetdevData :=
  let s1 := { s with mode_linkup := false }
  match evt with
  | NetdevEvt.register => { s1 with net_dev := some dev }
  | NetdevEvt.changename => { s1 with net_dev := none }
  | NetdevEvt.unregister => { s1 with net_dev := none }
  | NetdevEvt.up => if dev.carrier then { s1 with mode_linkup := true } else s1
  | NetdevEvt.change => if dev.carrier then { s1 with mode_linkup := true } else s1
  | NetdevEvt.down => s1
  | NetdevEvt.otherEvt => s1

/-- `netdev_trig_notify`: ignores event kinds outside the handled six and
events whose device name differs from the configured name; a matching
event cancels the poll task, applies `notifyUpdate` and reconciles.
Always returns `NOTIFY_DONE`. -/
def netdev_trig_notify (s : LedNetdevData) (evt : NetdevEvt) (dev : NetDevice) :
    LedNetdevData × Nat :=
  if evt = NetdevEvt.otherEvt then (s, NOTIFY_DONE)
  else if dev.name ≠ cstring s.device_name then (s, NOTIFY_DONE)
  else
    (set_baseline_state (notifyUpdate (cancelWork s) evt dev), NOTIFY_DONE)

/-- The `new_activity` computation of the work function: the monitored
counters summed and truncated to `unsigned int`. -/
def newActivity (s : LedNetdevData) (txPackets rxPackets : Nat) : Nat :=
  ((if s.mode_tx then txPackets else 0) +
   (if s.mode_rx then rxPackets else 0)) % U32

/-- Observable side effects of one invocation of the work function on the
LED and the workqueue: whether it stopped a software blink, the one-shot
blink it issued (on ms, off ms, invert), and the delay it rescheduled
itself with. -/
structure WorkOut where
  stoppedBlink : Bool
  oneshot : Option (Nat × Nat × Bool)
  rescheduled : Option Nat
  deriving DecidableEq

/-- `netdev_trig_work`, one poller tick. `txPackets` and `rxPackets` are
the counters `dev_get_stats` reports at this instant. Without a device it
forces the output OFF and stops; without TX/RX monitoring it stops;
otherwise it compares the truncated activity sum with `last_activity`,
issuing one equal-on/off one-shot blink (inverted when `NETDEV_LED_LINK`
is set) on change, and unconditionally reschedules itself with delay
twice the interval. -/
def netdev_trig_work (s : LedNetdevData) (txPackets rxPackets : Nat) :
    LedNetdevData × WorkOut :=
  match s.net_dev with
  | none => (ledSetBrightness s 0, ⟨false, none, none⟩)
  | some _ =>
    if s.mode_tx = false ∧ s.mode_rx = false then (s, ⟨false, none, none⟩)
    else if s.last_activity ≠ newActivity s txPackets rxPackets then
      (scheduleWork { s with last_activity := newActivity s txPackets rxPackets }
        (2 * s.interval),
       ⟨true, some (s.interval, s.interval, s.mode_link), some (2 * s.interval)⟩)
    else
      (scheduleWork s (2 * s.interval), ⟨false, none, some (2 * s.interval)⟩)

/-- The controller state `netdev_trig_activate` builds: empty name buffer,
no device, link monitoring on, 50 ms interval, zero activity, work idle.
The LED fields model a class device with maximum brightness 255 that is
currently off. -/
def initState : LedNetdevData :=
  { device_name := List.replicate IFNAMSIZ NUL
    net_dev := none
    interval := 50
    last_activity := 0
    mode_link := true
    mode_tx := false
    mode_rx := false
    mode_linkup := false
    brightness := 0
    blink_brightness := 0
    max_brightness := 255
    work_scheduled := false
    work_delay := 0 }

/-- One externally-triggered operation on the controller: a configuration
write (with the registry contents at that moment for name resolution), a
notifier event, or one tick of the scheduled work item (with the counter
values read at that moment). -/
inductive Op
  | opDeviceName (buf : String) (reg : List NetDevice)
  | opAttr (attr : NetdevLedAttr) (buf : String)
  | opMode (buf : String)
  | opInterval (buf : String)
  | opNotify (evt : NetdevEvt) (dev : NetDevice)
  | opTick (txPackets rxPackets : Nat)

/-- Applies one operation to the controller state. A tick only runs when
the work item is pending, and the item stops being pending when its
function starts executing. -/
def applyOp (s : LedNetdevData) : Op → LedNetdevData
  | Op.opDeviceName buf reg => (device_name_store s buf reg).1
  | Op.opAttr attr buf => (netdev_led_attr_store s buf attr).1
  | Op.opMode buf => (mode_store s buf).1
  | Op.opInterval buf => (interval_store s buf).1
  | Op.opNotify evt dev => (netdev_trig_notify s evt dev).1
  | Op.opTick txp rxp =>
      if s.work_scheduled then
        (netdev_trig_work { s with work_scheduled := false } txp rxp).1
      else s

/-- Runs a sequence of operations from a starting state. -/
def runOps (s : LedNetdevData) (ops : List Op) : LedNetdevData :=
  ops.foldl applyOp s

/-- Whether applying `op` in state `s` reaches a `set_baseline_state`
(Reconciler) call. -/
def invokesReconciler (s : LedNetdevData) : Op → Bool
  | Op.opDeviceName buf _ => decide (buf.length < IFNAMSIZ)
  | Op.opAttr _ buf => (kstrtoul buf).isSome
  | Op.opMode _ => true
  | Op.opInterval buf =>
      match kstrtoul buf with
      | some v => decide (5 ≤ v ∧ v ≤ 10000)
      | none => false
  | Op.opNotify evt dev =>
      decide (evt ≠ NetdevEvt.otherEvt) && (dev.name == cstring s.device_name)
  | Op.opTick _ _ => false

/-- The operations that re-establish the unbound/no-link relation: an
accepted device-name write, or a matching REGISTER, UNREGISTER, RENAME or
DOWN notification. -/
def establishesUnbound (s : LedNetdevData) : Op → Bool
  | Op.opDeviceName buf _ => decide (buf.length < IFNAMSIZ)
  | Op.opNotify evt dev =>
      (decide (evt = NetdevEvt.register) || decide (evt = NetdevEvt.unregister) ||
       decide (evt = NetdevEvt.changename) || decide (evt = NetdevEvt.down)) &&
      (dev.name == cstring s.device_name)
  | _ => false

/-- A matching UP or CHANGE notification — the one operation class that
can set `NETDEV_LED_MODE_LINKUP` without consulting `net_dev`. -/
def isMatchingUpChange (s : LedNetdevData) : Op → Bool
  | Op.opNotify evt dev =>
      (decide (evt = NetdevEvt.up) || decide (evt = NetdevEvt.change)) &&
      (dev.name == cstring s.device_name)
  | _ => false

/-- The invariant claimed by the specification: whenever the bound device
handle is none, the linkup flag is false, the indicator output is off and
the poller is not pending. -/
def C1Inv (s : LedNetdevData) : Prop :=
  s.net_dev = none →
    s.mode_linkup = false ∧ s.brightness = 0 ∧ s.work_scheduled = false

end LedtrigNetdev

namespace LedtrigNetdev

/-! ### Helper lemmas about the Reconciler -/

@[simp] theorem sbs_mode_link (s : LedNetdevData) :
    (set_baseline_state s).mode_link = s.mode_link := by
  unfold set_baseline_state ledSetBrightness scheduleWork
  repeat' split
  all_goals rfl

@[simp] theorem sbs_mode_tx (s : LedNetdevData) :
    (set_baseline_state s).mode_tx = s.mode_tx := by
  unfold set_baseline_state ledSetBrightness scheduleWork
  repeat' split
  all_goals rfl

@[simp] theorem sbs_mode_rx (s : LedNetdevData) :
    (set_baseline_state s).mode_rx = s.mode_rx := by
  unfold set_baseline_state ledSetBrightness scheduleWork
  repeat' split
  all_goals rfl

@[simp] theorem sbs_mode_linkup (s : LedNetdevData) :
    (set_baseline_state s).mode_linkup = s.mode_linkup := by
  unfold set_baseline_state ledSetBrightness scheduleWork
  repeat' split
  all_goals rfl

@[simp] theorem sbs_net_dev (s : LedNetdevData) :
    (set_baseline_state s).net_dev = s.net_dev := by
  unfold set_baseline_state ledSetBrightness scheduleWork
  repeat' split
  all_goals rfl

@[simp] theorem sbs_interval (s : LedNetdevData) :
    (set_baseline_state s).interval = s.interval := by
  unfold set_baseline_state ledSetBrightness scheduleWork
  repeat' split
  all_goals rfl

@[simp] theorem sbs_last_activity (s : LedNetdevData) :
    (set_baseline_state s).last_activity = s.last_activity := by
  unfold set_baseline_state ledSetBrightness scheduleWork
  repeat' split
  all_goals rfl

@[simp] theorem sbs_device_name (s : LedNetdevData) :
    (set_baseline_state s).device_name = s.device_name := by
  unfold set_baseline_state ledSetBrightness scheduleWork
  repeat' split
  all_goals rfl

@[simp] theorem sbs_max_brightness (s : LedNetdevData) :
    (set_baseline_state s).max_brightness = s.max_brightness := by
  unfold set_baseline_state ledSetBrightness scheduleWork
  repeat' split
  all_goals rfl

@[simp] theorem sbs_blink_brightness (s : LedNetdevData) :
    (set_baseline_state s).blink_brightness = captureBlink s := by
  unfold set_baseline_state ledSetBrightness scheduleWork
  repeat' split
  all_goals rfl

theorem sbs_brightness (s : LedNetdevData) :
    (set_baseline_state s).brightness =
      if s.mode_linkup = false then 0
      else if s.mode_link then captureBlink s else 0 := by
  unfold set_baseline_state ledSetBrightness scheduleWork
  repeat' split
  all_goals simp_all

theorem sbs_work_scheduled (s : LedNetdevData) :
    (set_baseline_state s).work_scheduled =
      (s.work_scheduled || (s.mode_linkup && (s.mode_tx || s.mode_rx))) := by
  unfold set_baseline_state ledSetBrightness scheduleWork
  repeat' split
  all_goals simp_all

theorem sbs_work_delay (s : LedNetdevData) (h : s.work_scheduled = false) :
    (set_baseline_state s).work_delay =
      if s.mode_linkup && (s.mode_tx || s.mode_rx) then 0 else s.work_delay := by
  unfold set_baseline_state ledSetBrightness scheduleWork
  repeat' split
  all_goals simp_all

theorem captureBlink_pos (s : LedNetdevData) (h : 0 < s.max_brightness) :
    0 < captureBlink s := by
  unfold captureBlink
  repeat' split
  all_goals omega

theorem captureBlink_sbs (s : LedNetdevData) :
    captureBlink (set_baseline_state s) = captureBlink s := by
  unfold captureBlink
  rw [sbs_brightness, sbs_blink_brightness, sbs_max_brightness]
  unfold captureBlink
  repeat' split
  all_goals simp_all

theorem sbs_off_of_cancelled (m : LedNetdevData) (hw : m.work_scheduled = false)
    (h : (set_baseline_state m).mode_linkup = false) :
    (set_baseline_state m).brightness = 0 ∧
      (set_baseline_state m).work_scheduled = false := by
  rw [sbs_mode_linkup] at h
  constructor
  · rw [sbs_brightness]
    simp [h]
  · rw [sbs_work_scheduled]
    simp [h, hw]

end LedtrigNetdev

namespace LedtrigNetdev

/-! ### Helper lemmas about the other operations -/

theorem deviceNameRebind_work (s : LedNetdevData) (buf : String)
    (reg : List NetDevice) :
    (deviceNameRebind s buf reg).work_scheduled = s.work_scheduled := rfl

theorem deviceNameRebind_last (s : LedNetdevData) (buf : String)
    (reg : List NetDevice) :
    (deviceNameRebind s buf reg).last_activity = 0 := rfl

theorem deviceNameRebind_linkup (s : LedNetdevData) (buf : String)
    (reg : List NetDevice) :
    (deviceNameRebind s buf reg).mode_linkup =
      linkupFromDev (deviceNameRebind s buf reg).net_dev := rfl

theorem notifyUpdate_work (s : LedNetdevData) (evt : NetdevEvt) (dev : NetDevice) :
    (notifyUpdate s evt dev).work_scheduled = s.work_scheduled := by
  cases evt
  all_goals cases hc : dev.carrier
  all_goals simp [notifyUpdate, hc]

theorem notifyUpdate_net_dev_up_change (s : LedNetdevData) (evt : NetdevEvt)
    (dev : NetDevice) (h : evt = NetdevEvt.up ∨ evt = NetdevEvt.change) :
    (notifyUpdate s evt dev).net_dev = s.net_dev := by
  rcases h with h | h
  all_goals subst h
  all_goals cases hc : dev.carrier
  all_goals simp [notifyUpdate, hc]

theorem notifyUpdate_linkup_up_change (s : LedNetdevData) (evt : NetdevEvt)
    (dev : NetDevice) (h : evt = NetdevEvt.up ∨ evt = NetdevEvt.change) :
    (notifyUpdate s evt dev).mode_linkup = dev.carrier := by
  rcases h with h | h
  all_goals subst h
  all_goals cases hc : dev.carrier
  all_goals simp [notifyUpdate, hc]

theorem work_net_dev (s : LedNetdevData) (txp rxp : Nat) :
    (netdev_trig_work s txp rxp).1.net_dev = s.net_dev := by
  cases hnd : s.net_dev
  all_goals simp only [netdev_trig_work, ledSetBrightness, scheduleWork, hnd]
  all_goals repeat' split
  all_goals simp_all

theorem work_mode_linkup (s : LedNetdevData) (txp rxp : Nat) :
    (netdev_trig_work s txp rxp).1.mode_linkup = s.mode_linkup := by
  cases hnd : s.net_dev
  all_goals simp only [netdev_trig_work, ledSetBrightness, scheduleWork, hnd]
  all_goals repeat' split
  all_goals simp_all

theorem work_mode_tx (s : LedNetdevData) (txp rxp : Nat) :
    (netdev_trig_work s txp rxp).1.mode_tx = s.mode_tx := by
  cases hnd : s.net_dev
  all_goals simp only [netdev_trig_work, ledSetBrightness, scheduleWork, hnd]
  all_goals repeat' split
  all_goals simp_all

theorem work_mode_rx (s : LedNetdevData) (txp rxp : Nat) :
    (netdev_trig_work s txp rxp).1.mode_rx = s.mode_rx := by
  cases hnd : s.net_dev
  all_goals simp only [netdev_trig_work, ledSetBrightness, scheduleWork, hnd]
  all_goals repeat' split
  all_goals simp_all

theorem work_mode_link (s : LedNetdevData) (txp rxp : Nat) :
    (netdev_trig_work s txp rxp).1.mode_link = s.mode_link := by
  cases hnd : s.net_dev
  all_goals simp only [netdev_trig_work, ledSetBrightness, scheduleWork, hnd]
  all_goals repeat' split
  all_goals simp_all

theorem work_interval (s : LedNetdevData) (txp rxp : Nat) :
    (netdev_trig_work s txp rxp).1.interval = s.interval := by
  cases hnd : s.net_dev
  all_goals simp only [netdev_trig_work, ledSetBrightness, scheduleWork, hnd]
  all_goals repeat' split
  all_goals simp_all

theorem work_last_activity (s : LedNetdevData) (txp rxp : Nat) (d : NetDevice)
    (hdev : s.net_dev = some d) (hmon : (s.mode_tx || s.mode_rx) = true) :
    (netdev_trig_work s txp rxp).1.last_activity = newActivity s txp rxp := by
  have hnot : ¬(s.mode_tx = false ∧ s.mode_rx = false) := by
    rcases Bool.or_eq_true_iff.mp hmon with h | h
    all_goals simp [h]
  simp only [netdev_trig_work, scheduleWork, hdev, if_neg hnot]
  split
  · split
    all_goals rfl
  · rename_i hne
    split
    all_goals simp_all

end LedtrigNetdev

namespace LedtrigNetdev

/-! ### C8: idempotence of the Reconciler -/

/-- Claim C8: the Reconciler is idempotent — for every state, invoking
`set_baseline_state` twice in a row with no intervening state change
produces the same indicator output and the same poller run/stop decision
on both invocations. -/
theorem set_baseline_state_idem (s : LedNetdevData) :
    (set_baseline_state (set_baseline_state s)).brightness =
      (set_baseline_state s).brightness ∧
    (set_baseline_state (set_baseline_state s)).work_scheduled =
      (set_baseline_state s).work_scheduled := by
  constructor
  · rw [sbs_brightness, sbs_brightness, sbs_mode_linkup, sbs_mode_link,
      captureBlink_sbs]
  · rw [sbs_work_scheduled, sbs_work_scheduled, sbs_mode_linkup, sbs_mode_tx,
      sbs_mode_rx, Bool.or_assoc, Bool.or_self]

/-! ### C3: the Reconciler's output and poller decision -/

/-- Claim C3: every invocation of the Reconciler `set_baseline_state`
(called with the poll task cancelled, on an indicator with a positive
maximum brightness): if linkup is false it turns the output OFF and does
not start the poller; if linkup is true it sets the output ON exactly
when link monitoring is set (else OFF) and schedules the poller — with
zero delay — exactly when TX or RX monitoring is set; and when no
non-zero pulse brightness is known it falls back to maximum brightness. -/
theorem set_baseline_state_reconciler (s : LedNetdevData)
    (hmax : 0 < s.max_brightness) (hw : s.work_scheduled = false) :
    (s.mode_linkup = false →
        (set_baseline_state s).brightness = 0 ∧
        (set_baseline_state s).work_scheduled = false) ∧
    (s.mode_linkup = true →
        (s.mode_link = true → 0 < (set_baseline_state s).brightness) ∧
        (s.mode_link = false → (set_baseline_state s).brightness = 0) ∧
        (set_baseline_state s).work_scheduled = (s.mode_tx || s.mode_rx) ∧
        ((s.mode_tx || s.mode_rx) = true →
          (set_baseline_state s).work_delay = 0)) ∧
    (s.brightness = 0 → s.blink_brightness = 0 →
        (set_baseline_state s).blink_brightness = s.max_brightness) := by
  refine ⟨?_, ?_, ?_⟩
  · intro h
    constructor
    · rw [sbs_brightness]
      simp [h]
    · rw [sbs_work_scheduled]
      simp [h, hw]
  · intro h
    refine ⟨?_, ?_, ?_, ?_⟩
    · intro hl
      rw [sbs_brightness]
      simp only [h, hl]
      simpa using captureBlink_pos s hmax
    · intro hl
      rw [sbs_brightness]
      simp [h, hl]
    · rw [sbs_work_scheduled]
      simp [h, hw]
    · intro hm
      rw [sbs_work_delay s hw]
      simp [h, hm]
  · intro h1 h2
    rw [sbs_blink_brightness]
    unfold captureBlink
    simp [h1, h2]

/-- Witness for C3 at a concrete input: the initial state with linkup set
and TX monitoring on schedules the poller with zero delay. -/
theorem set_baseline_state_reconciler_witness :
    (set_baseline_state { initState with mode_linkup := true, mode_tx := true }).work_scheduled = (true || false) ∧
    (set_baseline_state { initState with mode_linkup := true, mode_tx := true }).work_delay = 0 := by
  have h := set_baseline_state_reconciler
    { initState with mode_linkup := true, mode_tx := true } (by decide) (by decide)
  exact ⟨(h.2.1 rfl).2.2.1, (h.2.1 rfl).2.2.2 rfl⟩

end LedtrigNetdev

namespace LedtrigNetdev

/-! ### C2: one poller tick -/

/-- Claim C2: for every poller tick with a bound device and at least one of
TX/RX monitoring set — if the computed activity sum differs from
`last_activity`, the tick stops any running blink, issues exactly one
one-shot blink pulse with on-duration equal to off-duration equal to the
poll interval and baseline inverted exactly when link monitoring is set,
and stores the new activity value; when the sum is unchanged it issues no
pulse; and in all such ticks it reschedules itself to run again after
twice the poll interval. -/
theorem netdev_trig_work_tick (s : LedNetdevData) (txp rxp : Nat)
    (d : NetDevice) (hdev : s.net_dev = some d)
    (hmon : (s.mode_tx || s.mode_rx) = true) :
    (newActivity s txp rxp ≠ s.last_activity →
        (netdev_trig_work s txp rxp).2.stoppedBlink = true ∧
        (netdev_trig_work s txp rxp).2.oneshot =
          some (s.interval, s.interval, s.mode_link) ∧
        (netdev_trig_work s txp rxp).1.last_activity = newActivity s txp rxp) ∧
    (newActivity s txp rxp = s.last_activity →
        (netdev_trig_work s txp rxp).2.oneshot = none) ∧
    (netdev_trig_work s txp rxp).2.rescheduled = some (2 * s.interval) := by
  have hnot : ¬(s.mode_tx = false ∧ s.mode_rx = false) := by
    rcases Bool.or_eq_true_iff.mp hmon with h | h
    all_goals simp [h]
  refine ⟨?_, ?_, ?_⟩
  · intro h
    have hne : s.last_activity ≠ newActivity s txp rxp := fun he => h he.symm
    refine ⟨?_, ?_, ?_⟩
    · simp [netdev_trig_work, hdev, if_neg hnot, if_pos hne]
    · simp [netdev_trig_work, hdev, if_neg hnot, if_pos hne]
    · exact work_last_activity s txp rxp d hdev hmon
  · intro h
    have hne : ¬ s.last_activity ≠ newActivity s txp rxp := by simp [h]
    simp [netdev_trig_work, hdev, if_neg hnot, if_neg hne]
  · by_cases hne : s.last_activity ≠ newActivity s txp rxp
    · simp [netdev_trig_work, hdev, if_neg hnot, if_pos hne]
    · simp [netdev_trig_work, hdev, if_neg hnot, if_neg hne]

/-- Witness for C2 at a concrete input: a bound device with TX monitoring,
counters moving from 0 to 1, issues one 50/50 inverted pulse and
reschedules after 100 ms. -/
theorem netdev_trig_work_tick_witness :
    (netdev_trig_work { initState with net_dev := some (NetDevice.mk "eth0" true), mode_tx := true, mode_linkup := true } 1 0).2.oneshot = some (50, 50, true) ∧
    (netdev_trig_work { initState with net_dev := some (NetDevice.mk "eth0" true), mode_tx := true, mode_linkup := true } 1 0).2.rescheduled = some 100 := by
  have h := netdev_trig_work_tick
    { initState with net_dev := some (NetDevice.mk "eth0" true), mode_tx := true, mode_linkup := true }
    1 0 (NetDevice.mk "eth0" true) rfl (by decide)
  refine ⟨?_, ?_⟩
  · have h2 := (h.1 (by decide)).2.1
    simpa using h2
  · simpa using h.2.2

/-! ### C10: the 32-bit truncation of the activity sum -/

/-- Claim C10: the poller's activity comparison is performed modulo 2^32 —
the 64-bit counters are summed into an `unsigned int`; for a pair of
polls whose true monitored counter sums differ by an exact multiple of
2^32, the truncated sums coincide and the second poll issues no blink
pulse. -/
theorem activity_sum_mod_u32 (s : LedNetdevData) (d : NetDevice)
    (txp1 rxp1 txp2 rxp2 k : Nat) (hdev : s.net_dev = some d)
    (hmon : (s.mode_tx || s.mode_rx) = true)
    (hsum : (if s.mode_tx then txp2 else 0) + (if s.mode_rx then rxp2 else 0) =
      (if s.mode_tx then txp1 else 0) + (if s.mode_rx then rxp1 else 0) +
        k * U32) :
    (netdev_trig_work (netdev_trig_work s txp1 rxp1).1 txp2 rxp2).2.oneshot =
      none := by
  set s1 := (netdev_trig_work s txp1 rxp1).1 with hs1
  have hdev1 : s1.net_dev = some d := by rw [hs1, work_net_dev]; exact hdev
  have htx : s1.mode_tx = s.mode_tx := by rw [hs1, work_mode_tx]
  have hrx : s1.mode_rx = s.mode_rx := by rw [hs1, work_mode_rx]
  have hmon1 : (s1.mode_tx || s1.mode_rx) = true := by rw [htx, hrx]; exact hmon
  have hlast : s1.last_activity = newActivity s txp1 rxp1 :=
    work_last_activity s txp1 rxp1 d hdev hmon
  have heq : newActivity s1 txp2 rxp2 = s1.last_activity := by
    rw [hlast]
    unfold newActivity
    rw [htx, hrx, hsum, Nat.add_mul_mod_self_right]
  have hnot : ¬(s1.mode_tx = false ∧ s1.mode_rx = false) := by
    rcases Bool.or_eq_true_iff.mp hmon1 with h | h
    all_goals simp [h]
  have hne : ¬ s1.last_activity ≠ newActivity s1 txp2 rxp2 := by simp [heq]
  simp [netdev_trig_work, hdev1, if_neg hnot, if_neg hne]

/-- Witness for C10 at a concrete input: with TX monitoring, a first poll
at 5 packets and a second at 5 + 2^32 packets issues no pulse. -/
theorem activity_sum_mod_u32_witness :
    (netdev_trig_work (netdev_trig_work { initState with net_dev := some (NetDevice.mk "eth0" true), mode_tx := true, mode_linkup := true } 5 0).1 (5 + 2 ^ 32) 0).2.oneshot = none :=
  activity_sum_mod_u32
    { initState with net_dev := some (NetDevice.mk "eth0" true), mode_tx := true, mode_linkup := true }
    (NetDevice.mk "eth0" true) 5 0 (5 + 2 ^ 32) 0 1 rfl (by decide) (by decide)

end LedtrigNetdev

namespace LedtrigNetdev

/-! ### C4: the notification handler -/

theorem notify_matched (s : LedNetdevData) (evt : NetdevEvt) (dev : NetDevice)
    (hevt : evt ≠ NetdevEvt.otherEvt)
    (hname : dev.name = cstring s.device_name) :
    netdev_trig_notify s evt dev =
      (set_baseline_state (notifyUpdate (cancelWork s) evt dev), NOTIFY_DONE) := by
  simp [netdev_trig_notify, hevt, hname]

/-- Claim C4: a delivered event of one of the six handled kinds whose
interface name differs from the configured name mutates no state and
returns the neutral not-consumed result; a matching event first clears
linkup, then on REGISTER stores a handle to the event device, on RENAME
or UNREGISTER clears the handle, on UP or CHANGE sets linkup exactly to
the reported carrier state, and then invokes the Reconciler. -/
theorem netdev_trig_notify_cases (s : LedNetdevData) (evt : NetdevEvt)
    (dev : NetDevice) :
    (evt ≠ NetdevEvt.otherEvt → dev.name ≠ cstring s.device_name →
        netdev_trig_notify s evt dev = (s, NOTIFY_DONE)) ∧
    (netdev_trig_notify s evt dev).2 = NOTIFY_DONE ∧
    (dev.name = cstring s.device_name →
      (evt = NetdevEvt.register →
          (netdev_trig_notify s evt dev).1.net_dev = some dev ∧
          (netdev_trig_notify s evt dev).1.mode_linkup = false) ∧
      ((evt = NetdevEvt.changename ∨ evt = NetdevEvt.unregister) →
          (netdev_trig_notify s evt dev).1.net_dev = none ∧
          (netdev_trig_notify s evt dev).1.mode_linkup = false) ∧
      ((evt = NetdevEvt.up ∨ evt = NetdevEvt.change) →
          (netdev_trig_notify s evt dev).1.mode_linkup = dev.carrier ∧
          (netdev_trig_notify s evt dev).1.net_dev = s.net_dev) ∧
      (evt = NetdevEvt.down →
          (netdev_trig_notify s evt dev).1.mode_linkup = false) ∧
      (evt ≠ NetdevEvt.otherEvt →
          (netdev_trig_notify s evt dev).1 =
            set_baseline_state (notifyUpdate (cancelWork s) evt dev))) := by
  refine ⟨?_, ?_, ?_⟩
  · intro hevt hname
    simp [netdev_trig_notify, hevt, hname]
  · unfold netdev_trig_notify
    repeat' split
    all_goals rfl
  · intro hname
    refine ⟨?_, ?_, ?_, ?_, ?_⟩
    · intro he
      subst he
      rw [notify_matched s _ dev (by simp) hname]
      constructor
      · simp [sbs_net_dev, notifyUpdate]
      · simp [sbs_mode_linkup, notifyUpdate]
    · intro he
      rcases he with he | he
      all_goals subst he
      all_goals rw [notify_matched s _ dev (by simp) hname]
      all_goals constructor
      · simp [sbs_net_dev, notifyUpdate]
      · simp [sbs_mode_linkup, notifyUpdate]
      · simp [sbs_net_dev, notifyUpdate]
      · simp [sbs_mode_linkup, notifyUpdate]
    · intro he
      have hevt : evt ≠ NetdevEvt.otherEvt := by
        rcases he with he | he
        all_goals subst he
        all_goals simp
      rw [notify_matched s _ dev hevt hname]
      constructor
      · simp only [sbs_mode_linkup]
        exact notifyUpdate_linkup_up_change (cancelWork s) evt dev he
      · simp only [sbs_net_dev]
        rw [notifyUpdate_net_dev_up_change (cancelWork s) evt dev he]
        rfl
    · intro he
      subst he
      rw [notify_matched s _ dev (by simp) hname]
      simp [sbs_mode_linkup, notifyUpdate]
    · intro hevt
      rw [notify_matched s _ dev hevt hname]

/-- Witness for C4 at concrete inputs: an UP event for a foreign interface
name leaves the fresh controller state untouched, and a matching REGISTER
event stores the device handle. -/
theorem netdev_trig_notify_cases_witness :
    netdev_trig_notify initState NetdevEvt.up (NetDevice.mk "eth0" true) =
      (initState, NOTIFY_DONE) ∧
    (netdev_trig_notify { initState with device_name := strncpyBuf initState.device_name "eth0" } NetdevEvt.register (NetDevice.mk "eth0" true)).1.net_dev = some (NetDevice.mk "eth0" true) := by
  constructor
  · exact (netdev_trig_notify_cases initState NetdevEvt.up
      (NetDevice.mk "eth0" true)).1 (by decide) (by decide)
  · exact (((netdev_trig_notify_cases
      { initState with device_name := strncpyBuf initState.device_name "eth0" }
      NetdevEvt.register (NetDevice.mk "eth0" true)).2.2 (by decide)).1 rfl).1

/-! ### C6: the empty device-name write -/

theorem deviceNameRebind_newline (s : LedNetdevData) (reg : List NetDevice) :
    (deviceNameRebind s "\n" reg).net_dev = none := by
  have hd : ("\n").data = ['\n'] := rfl
  have hl : ("\n").length = 1 := rfl
  simp [deviceNameRebind, strncpyBuf, hd, hl]

/-- Claim C6: for every prior state and registry contents, writing the
empty device name (the newline-only buffer, the only accepted write whose
stripped name is empty) fully unbinds the controller: afterwards the
device handle is none, linkup is false, `last_activity` is 0, the poller
is not pending, and the indicator output is OFF. -/
theorem empty_device_name_unbinds (s : LedNetdevData) (reg : List NetDevice) :
    (device_name_store s "\n" reg).1.net_dev = none ∧
    (device_name_store s "\n" reg).1.mode_linkup = false ∧
    (device_name_store s "\n" reg).1.last_activity = 0 ∧
    (device_name_store s "\n" reg).1.work_scheduled = false ∧
    (device_name_store s "\n" reg).1.brightness = 0 := by
  have hlen : ¬ (IFNAMSIZ ≤ ("\n").length) := by decide
  have hnd := deviceNameRebind_newline (cancelWork s) reg
  have hm : (deviceNameRebind (cancelWork s) "\n" reg).mode_linkup = false := by
    rw [deviceNameRebind_linkup, hnd]
    rfl
  simp only [device_name_store, if_neg hlen]
  refine ⟨?_, ?_, ?_, ?_, ?_⟩
  · rw [sbs_net_dev]
    exact hnd
  · rw [sbs_mode_linkup]
    exact hm
  · rw [sbs_last_activity, deviceNameRebind_last]
  · rw [sbs_work_scheduled, deviceNameRebind_work, hm]
    simp [cancelWork]
  · rw [sbs_brightness, hm]
    simp

/-! ### C7: interval writes -/

/-- Claim C7: every interval write of a well-formed integer returns
success (the consumed size); a value outside [5, 10000] leaves the whole
state unchanged; a value within [5, 10000] cancels the in-flight poll
task, stores the value as the new interval, and re-runs the Reconciler. -/
theorem interval_store_bounds (s : LedNetdevData) (buf : String) (v : Nat)
    (hp : kstrtoul buf = some v) :
    (interval_store s buf).2 = (buf.length : Int) ∧
    (¬ (5 ≤ v ∧ v ≤ 10000) → (interval_store s buf).1 = s) ∧
    (5 ≤ v ∧ v ≤ 10000 →
        (interval_store s buf).1 =
          set_baseline_state { cancelWork s with interval := v } ∧
        (interval_store s buf).1.interval = v) := by
  refine ⟨?_, ?_, ?_⟩
  · simp only [interval_store, hp]
    split
    all_goals rfl
  · intro h
    simp [interval_store, hp, if_neg h]
  · intro h
    constructor
    · simp [interval_store, hp, if_pos h]
    · simp [interval_store, hp, if_pos h, sbs_interval, cancelWork]

/-- Witness for C7 at concrete inputs: writing 3 is ignored, writing 200
updates the interval, and both writes return the consumed size. -/
theorem interval_store_bounds_witness :
    (interval_store initState "3").1 = initState ∧
    (interval_store initState "200").1.interval = 200 ∧
    (interval_store initState "200").2 = (("200").length : Int) := by
  refine ⟨?_, ?_, ?_⟩
  · exact (interval_store_bounds initState "3" 3 (by decide)).2.1 (by decide)
  · exact ((interval_store_bounds initState "200" 200 (by decide)).2.2
      (by decide)).2
  · exact (interval_store_bounds initState "200" 200 (by decide)).1

end LedtrigNetdev

namespace LedtrigNetdev

/-! ### C5: resetting of last_activity -/

theorem attr_store_01_eq (s : LedNetdevData) (b : Bool) (attr : NetdevLedAttr) :
    (netdev_led_attr_store s (if b then "1" else "0") attr).1 =
      set_baseline_state (setModeBit (cancelWork s) attr b) := by
  cases b
  all_goals simp [netdev_led_attr_store, show kstrtoul "1" = some 1 from rfl,
    show kstrtoul "0" = some 0 from rfl]

theorem setModeBit_last (s : LedNetdevData) (attr : NetdevLedAttr) (b : Bool) :
    (setModeBit s attr b).last_activity = s.last_activity := by
  cases attr
  all_goals rfl

/-- Counterexample to C5 as stated: a flag write (setting the link flag to
1) leaves a non-zero `last_activity` unchanged instead of resetting it
to 0. -/
theorem last_activity_flag_write_cex :
    ¬ ((netdev_led_attr_store { initState with last_activity := 7 } "1"
      NetdevLedAttr.link).1.last_activity = 0) := by
  decide

/-- Claim C5 (amended): `last_activity` equals 0 after every accepted
device-name write; flag writes (the link/tx/rx stores and the combined
mode store) leave `last_activity` unchanged — they do not reset it. -/
theorem last_activity_reset_amended (s : LedNetdevData) (buf : String)
    (reg : List NetDevice) (attr : NetdevLedAttr) (v : Nat) :
    (buf.length < IFNAMSIZ →
        (device_name_store s buf reg).1.last_activity = 0) ∧
    (kstrtoul buf = some v →
        (netdev_led_attr_store s buf attr).1.last_activity =
          s.last_activity) ∧
    (mode_store s buf).1.last_activity = s.last_activity := by
  refine ⟨?_, ?_, ?_⟩
  · intro h
    have hlen : ¬ (IFNAMSIZ ≤ buf.length) := by omega
    simp only [device_name_store, if_neg hlen]
    rw [sbs_last_activity, deviceNameRebind_last]
  · intro hp
    simp only [netdev_led_attr_store, hp]
    rw [sbs_last_activity, setModeBit_last]
    rfl
  · simp only [mode_store]
    rw [attr_store_01_eq, sbs_last_activity, setModeBit_last]
    show (netdev_led_attr_store _ _ _).1.last_activity = _
    rw [attr_store_01_eq, sbs_last_activity, setModeBit_last]
    show (netdev_led_attr_store _ _ _).1.last_activity = _
    rw [attr_store_01_eq, sbs_last_activity, setModeBit_last]
    rfl

/-- Witness for C5 (amended) at concrete inputs: a device-name write
resets `last_activity` 7 to 0 while a link-flag write keeps it at 7. -/
theorem last_activity_reset_amended_witness :
    (device_name_store { initState with last_activity := 7 } "1" []).1.last_activity = 0 ∧
    (netdev_led_attr_store { initState with last_activity := 7 } "1" NetdevLedAttr.link).1.last_activity = 7 := by
  constructor
  · exact (last_activity_reset_amended { initState with last_activity := 7 }
      "1" [] NetdevLedAttr.link 1).1 (by decide)
  · have h := (last_activity_reset_amended { initState with last_activity := 7 }
      "1" [] NetdevLedAttr.link 1).2.1 (by decide)
    simpa using h

/-! ### C9: the combined-mode endpoint -/

/-- Counterexample to C9's read format as stated: with only the link flag
set (the activation default), `mode_show` prints the fixed three-slot
string "link  \n" with trailing separator spaces, which is not the
space-joined subset of set tokens, with or without a trailing newline. -/
theorem mode_show_format_cex :
    mode_show initState ≠ modeShowSpec initState ∧
    mode_show initState ≠ modeShowSpec initState ++ "\n" := by
  decide

/-- Claim C9 (amended): the combined-mode read is the three flag slots
joined by single spaces (an empty slot for each clear flag) plus a
newline, which coincides with the space-joined subset of set tokens
exactly when all three flags are set; every combined-mode write sets each
of the three flags to on exactly when the corresponding token occurs as a
substring of the written text — hence independent of token order — and
then invokes the Reconciler on the fully updated flags (with the poll
task cancelled). -/
theorem mode_endpoint_amended (s : LedNetdevData) (buf : String) :
    (mode_show s = modeShowSpec s ++ "\n" ↔
        (s.mode_link && (s.mode_tx && s.mode_rx)) = true) ∧
    (mode_store s buf).1.mode_link = strstrB buf "link" ∧
    (mode_store s buf).1.mode_tx = strstrB buf "tx" ∧
    (mode_store s buf).1.mode_rx = strstrB buf "rx" ∧
    (mode_store s buf).2 = (buf.length : Int) ∧
    (∃ m, (mode_store s buf).1 = set_baseline_state m ∧
        m.mode_link = strstrB buf "link" ∧ m.mode_tx = strstrB buf "tx" ∧
        m.mode_rx = strstrB buf "rx" ∧ m.work_scheduled = false) := by
  refine ⟨?_, ?_, ?_, ?_, ?_, ?_⟩
  · cases hL : s.mode_link
    all_goals cases hT : s.mode_tx
    all_goals cases hR : s.mode_rx
    all_goals simp only [mode_show, modeShowSpec, hL, hT, hR]
    all_goals decide
  · simp only [mode_store, attr_store_01_eq, sbs_mode_link]
    simp [setModeBit, cancelWork]
  · simp only [mode_store, attr_store_01_eq, sbs_mode_tx]
    simp [setModeBit, cancelWork]
  · simp only [mode_store, attr_store_01_eq, sbs_mode_rx]
    simp [setModeBit, cancelWork]
  · rfl
  · simp only [mode_store]
    rw [attr_store_01_eq]
    refine ⟨_, rfl, ?_, ?_, ?_, ?_⟩
    · simp only [attr_store_01_eq, sbs_mode_link]
      simp [setModeBit, cancelWork]
    · simp only [attr_store_01_eq, sbs_mode_tx]
      simp [setModeBit, cancelWork]
    · simp [setModeBit, cancelWork]
    · simp [setModeBit, cancelWork]

end LedtrigNetdev

namespace LedtrigNetdev

/-! ### C1: the controller invariant -/

theorem setModeBit_work (s : LedNetdevData) (attr : NetdevLedAttr) (b : Bool) :
    (setModeBit s attr b).work_scheduled = s.work_scheduled := by
  cases attr
  all_goals rfl

theorem setModeBit_net_dev (s : LedNetdevData) (attr : NetdevLedAttr) (b : Bool) :
    (setModeBit s attr b).net_dev = s.net_dev := by
  cases attr
  all_goals rfl

theorem setModeBit_linkup (s : LedNetdevData) (attr : NetdevLedAttr) (b : Bool) :
    (setModeBit s attr b).mode_linkup = s.mode_linkup := by
  cases attr
  all_goals rfl

theorem notifyUpdate_linkup_clear (s : LedNetdevData) (evt : NetdevEvt)
    (dev : NetDevice)
    (h : evt = NetdevEvt.register ∨ evt = NetdevEvt.unregister ∨
      evt = NetdevEvt.changename ∨ evt = NetdevEvt.down) :
    (notifyUpdate s evt dev).mode_linkup = false := by
  rcases h with h | h | h | h
  all_goals subst h
  all_goals simp [notifyUpdate]

theorem applyOp_deviceName_eq (s : LedNetdevData) (buf : String)
    (reg : List NetDevice) (h : buf.length < IFNAMSIZ) :
    applyOp s (Op.opDeviceName buf reg) =
      set_baseline_state (deviceNameRebind (cancelWork s) buf reg) := by
  have hlen : ¬ (IFNAMSIZ ≤ buf.length) := by omega
  simp [applyOp, device_name_store, if_neg hlen]

theorem mode_store_shape (s : LedNetdevData) (buf : String) :
    ∃ m, (mode_store s buf).1 = set_baseline_state m ∧
      m.work_scheduled = false := by
  simp only [mode_store]
  rw [attr_store_01_eq]
  exact ⟨_, rfl, by rw [setModeBit_work]; rfl⟩

theorem attr_store_net_dev (s : LedNetdevData) (buf : String)
    (attr : NetdevLedAttr) :
    (netdev_led_attr_store s buf attr).1.net_dev = s.net_dev := by
  cases hk : kstrtoul buf
  · simp [netdev_led_attr_store, hk]
  · simp [netdev_led_attr_store, hk, sbs_net_dev, setModeBit_net_dev, cancelWork]

theorem attr_store_linkup (s : LedNetdevData) (buf : String)
    (attr : NetdevLedAttr) :
    (netdev_led_attr_store s buf attr).1.mode_linkup = s.mode_linkup := by
  cases hk : kstrtoul buf
  · simp [netdev_led_attr_store, hk]
  · simp [netdev_led_attr_store, hk, sbs_mode_linkup, setModeBit_linkup,
      cancelWork]

theorem mode_store_net_dev (s : LedNetdevData) (buf : String) :
    (mode_store s buf).1.net_dev = s.net_dev := by
  simp only [mode_store]
  rw [attr_store_net_dev, attr_store_net_dev, attr_store_net_dev]

theorem mode_store_linkup (s : LedNetdevData) (buf : String) :
    (mode_store s buf).1.mode_linkup = s.mode_linkup := by
  simp only [mode_store]
  rw [attr_store_linkup, attr_store_linkup, attr_store_linkup]

theorem interval_store_net_dev (s : LedNetdevData) (buf : String) :
    (interval_store s buf).1.net_dev = s.net_dev := by
  cases hk : kstrtoul buf
  · simp [interval_store, hk]
  · simp only [interval_store, hk]
    split
    · rw [sbs_net_dev]
      rfl
    · rfl

theorem interval_store_linkup (s : LedNetdevData) (buf : String) :
    (interval_store s buf).1.mode_linkup = s.mode_linkup := by
  cases hk : kstrtoul buf
  · simp [interval_store, hk]
  · simp only [interval_store, hk]
    split
    · rw [sbs_mode_linkup]
      rfl
    · rfl

/-- Counterexample to C1 as stated: from the activation state, bind the
name eth0 while the registry cannot resolve it (the handle stays none),
then deliver a CHANGE event for an interface named eth0 that reports
carrier — an operation that invokes the Reconciler — after which the
handle is still none but linkup is true (and the output is on): the
claimed invariant chain fails after a Reconciler invocation. -/
theorem netdev_invariant_cex :
    invokesReconciler (runOps initState [Op.opDeviceName "eth0\n" []])
      (Op.opNotify NetdevEvt.change (NetDevice.mk "eth0" true)) = true ∧
    (runOps initState [Op.opDeviceName "eth0\n" [], Op.opNotify NetdevEvt.change (NetDevice.mk "eth0" true)]).net_dev = none ∧
    (runOps initState [Op.opDeviceName "eth0\n" [], Op.opNotify NetdevEvt.change (NetDevice.mk "eth0" true)]).mode_linkup = true ∧
    ¬ C1Inv (runOps initState [Op.opDeviceName "eth0\n" [], Op.opNotify NetdevEvt.change (NetDevice.mk "eth0" true)]) := by
  refine ⟨by decide, by decide, by decide, ?_⟩
  intro h
  exact absurd (h (by decide)).1 (by decide)

/-- Claim C1 (amended): for every state and operation — (i) after any
operation that invokes the Reconciler, linkup false implies the output is
off and the poller is not pending; (ii) every accepted device-name write
and every matching REGISTER/UNREGISTER/RENAME/DOWN notification
re-establishes that an absent handle implies linkup false; (iii) every
operation other than a matching UP or CHANGE notification preserves that
implication. A matching UP or CHANGE notification can set linkup true
from the event device's carrier even while the handle is none, so the
full claimed chain fails exactly there. -/
theorem controller_invariant_amended (s : LedNetdevData) (op : Op) :
    (invokesReconciler s op = true →
        (applyOp s op).mode_linkup = false →
        (applyOp s op).brightness = 0 ∧
          (applyOp s op).work_scheduled = false) ∧
    (establishesUnbound s op = true →
        (applyOp s op).net_dev = none →
        (applyOp s op).mode_linkup = false) ∧
    (isMatchingUpChange s op = false →
        (s.net_dev = none → s.mode_linkup = false) →
        (applyOp s op).net_dev = none →
        (applyOp s op).mode_linkup = false) := by
  refine ⟨?_, ?_, ?_⟩
  · cases op with
    | opDeviceName buf reg =>
        intro hinv hlk
        have hl : buf.length < IFNAMSIZ := of_decide_eq_true hinv
        rw [applyOp_deviceName_eq s buf reg hl] at hlk ⊢
        exact sbs_off_of_cancelled _ (by rw [deviceNameRebind_work]; rfl) hlk
    | opAttr attr buf =>
        intro hinv hlk
        simp only [invokesReconciler, Option.isSome_iff_exists] at hinv
        obtain ⟨v, hp⟩ := hinv
        have happ : applyOp s (Op.opAttr attr buf) =
            set_baseline_state (setModeBit (cancelWork s) attr (v != 0)) := by
          simp [applyOp, netdev_led_attr_store, hp]
        rw [happ] at hlk ⊢
        exact sbs_off_of_cancelled _ (by rw [setModeBit_work]; rfl) hlk
    | opMode buf =>
        intro hinv hlk
        obtain ⟨m, hm, hw⟩ := mode_store_shape s buf
        have happ : applyOp s (Op.opMode buf) = set_baseline_state m := hm
        rw [happ] at hlk ⊢
        exact sbs_off_of_cancelled m hw hlk
    | opInterval buf =>
        intro hinv hlk
        cases hk : kstrtoul buf with
        | none => simp [invokesReconciler, hk] at hinv
        | some v =>
            simp only [invokesReconciler, hk, decide_eq_true_eq] at hinv
            have happ : applyOp s (Op.opInterval buf) =
                set_baseline_state { cancelWork s with interval := v } := by
              simp [applyOp, interval_store, hk, if_pos hinv]
            rw [happ] at hlk ⊢
            exact sbs_off_of_cancelled _ rfl hlk
    | opNotify evt dev =>
        intro hinv hlk
        simp only [invokesReconciler, Bool.and_eq_true, decide_eq_true_eq,
          beq_iff_eq] at hinv
        obtain ⟨hevt, hname⟩ := hinv
        have happ : applyOp s (Op.opNotify evt dev) =
            set_baseline_state (notifyUpdate (cancelWork s) evt dev) := by
          simp only [applyOp]
          rw [notify_matched s evt dev hevt hname]
        rw [happ] at hlk ⊢
        exact sbs_off_of_cancelled _ (by rw [notifyUpdate_work]; rfl) hlk
    | opTick txp rxp =>
        intro hinv hlk
        simp [invokesReconciler] at hinv
  · cases op with
    | opDeviceName buf reg =>
        intro hest hnd
        have hl : buf.length < IFNAMSIZ := of_decide_eq_true hest
        rw [applyOp_deviceName_eq s buf reg hl] at hnd ⊢
        rw [sbs_net_dev] at hnd
        rw [sbs_mode_linkup, deviceNameRebind_linkup, hnd]
        rfl
    | opAttr attr buf => intro hest hnd; simp [establishesUnbound] at hest
    | opMode buf => intro hest hnd; simp [establishesUnbound] at hest
    | opInterval buf => intro hest hnd; simp [establishesUnbound] at hest
    | opNotify evt dev =>
        intro hest hnd
        simp only [establishesUnbound, Bool.and_eq_true, Bool.or_eq_true,
          decide_eq_true_eq, beq_iff_eq] at hest
        obtain ⟨h4, hname⟩ := hest
        have hevt : evt ≠ NetdevEvt.otherEvt := by
          rcases h4 with ((h | h) | h) | h
          all_goals subst h
          all_goals simp
        have happ : applyOp s (Op.opNotify evt dev) =
            set_baseline_state (notifyUpdate (cancelWork s) evt dev) := by
          simp only [applyOp]
          rw [notify_matched s evt dev hevt hname]
        rw [happ, sbs_mode_linkup]
        apply notifyUpdate_linkup_clear
        rcases h4 with ((h | h) | h) | h
        · exact Or.inl h
        · exact Or.inr (Or.inl h)
        · exact Or.inr (Or.inr (Or.inl h))
        · exact Or.inr (Or.inr (Or.inr h))
    | opTick txp rxp => intro hest hnd; simp [establishesUnbound] at hest
  · cases op with
    | opDeviceName buf reg =>
        intro hnm hold hnd
        by_cases hl : buf.length < IFNAMSIZ
        · rw [applyOp_deviceName_eq s buf reg hl] at hnd ⊢
          rw [sbs_net_dev] at hnd
          rw [sbs_mode_linkup, deviceNameRebind_linkup, hnd]
          rfl
        · have hlen : IFNAMSIZ ≤ buf.length := by omega
          have happ : applyOp s (Op.opDeviceName buf reg) = s := by
            simp [applyOp, device_name_store, if_pos hlen]
          rw [happ] at hnd ⊢
          exact hold hnd
    | opAttr attr buf =>
        intro hnm hold hnd
        simp only [applyOp] at hnd ⊢
        rw [attr_store_net_dev] at hnd
        rw [attr_store_linkup]
        exact hold hnd
    | opMode buf =>
        intro hnm hold hnd
        simp only [applyOp] at hnd ⊢
        rw [mode_store_net_dev] at hnd
        rw [mode_store_linkup]
        exact hold hnd
    | opInterval buf =>
        intro hnm hold hnd
        simp only [applyOp] at hnd ⊢
        rw [interval_store_net_dev] at hnd
        rw [interval_store_linkup]
        exact hold hnd
    | opNotify evt dev =>
        intro hnm hold hnd
        by_cases hevt : evt = NetdevEvt.otherEvt
        · have happ : applyOp s (Op.opNotify evt dev) = s := by
            simp [applyOp, netdev_trig_notify, hevt]
          rw [happ] at hnd ⊢
          exact hold hnd
        · by_cases hname : dev.name = cstring s.device_name
          · have happ : applyOp s (Op.opNotify evt dev) =
                set_baseline_state (notifyUpdate (cancelWork s) evt dev) := by
              simp only [applyOp]
              rw [notify_matched s evt dev hevt hname]
            rw [happ, sbs_mode_linkup]
            cases evt with
            | up => simp [isMatchingUpChange, hname] at hnm
            | change => simp [isMatchingUpChange, hname] at hnm
            | register => exact notifyUpdate_linkup_clear _ _ dev (Or.inl rfl)
            | unregister =>
                exact notifyUpdate_linkup_clear _ _ dev (Or.inr (Or.inl rfl))
            | changename =>
                exact notifyUpdate_linkup_clear _ _ dev
                  (Or.inr (Or.inr (Or.inl rfl)))
            | down =>
                exact notifyUpdate_linkup_clear _ _ dev
                  (Or.inr (Or.inr (Or.inr rfl)))
            | otherEvt => exact absurd rfl hevt
          · have happ : applyOp s (Op.opNotify evt dev) = s := by
              have hne : dev.name ≠ cstring s.device_name := hname
              simp [applyOp, netdev_trig_notify, hevt, hne]
            rw [happ] at hnd ⊢
            exact hold hnd
    | opTick txp rxp =>
        intro hnm hold hnd
        simp only [applyOp] at hnd ⊢
        by_cases hw : s.work_scheduled
        · rw [if_pos hw] at hnd ⊢
          rw [work_net_dev] at hnd
          rw [work_mode_linkup]
          exact hold hnd
        · rw [if_neg hw] at hnd ⊢
          exact hold hnd

/-- Witness for C1 (amended) at a concrete input: enabling TX monitoring
on the fresh (link-down) state leaves the output off and the poller
stopped. -/
theorem controller_invariant_amended_witness :
    (applyOp initState (Op.opAttr NetdevLedAttr.tx "1")).brightness = 0 ∧
    (applyOp initState (Op.opAttr NetdevLedAttr.tx "1")).work_scheduled =
      false :=
  (controller_invariant_amended initState
    (Op.opAttr NetdevLedAttr.tx "1")).1 (by decide) (by decide)

end LedtrigNetdev
